import Mathlib

/-!
Verification development for the CVI layered-canvas drawing application
(src/src/App.jsx).  The definitions below are a shallow embedding of the
handlers of that file: viewport transforms and screen/world conversion,
the wheel / pinch zoom updates, the per-pane ink path model with its
undo / redo history, and the edge-snap analyzer.  Numeric state is
modelled with exact rationals where the corresponding JavaScript code
performs only field arithmetic, and with real numbers where it calls
Math.hypot / Math.sqrt.  Where JavaScript can produce a non-finite
number (NaN from 0/0 in the pinch handler), the affected value is
modelled as an Option, with none standing for a non-finite value.
-/

namespace SFH

/-! ## Viewport transform (App.jsx 79, 94): pan offset x, y and scale k. -/

/-- Transform state { x, y, k } of one pane (App.jsx 79 and 94). -/
structure Transform where
  x : ℚ
  y : ℚ
  k : ℚ
  deriving DecidableEq, Repr

/-- Screen-to-world conversion of the workspace (left) pane, App.jsx
435-441:  cx = rect.width / 2, cy = rect.height / 2, and the result is
((clientX - rect.left - cx) / k - x, (clientY - rect.top - cy) / k - y).
Note that cx is always the full container half-width: it does not depend
on the comparison-mode slider position. -/
def toWorkspaceWorld (t : Transform) (rectLeft rectTop rectW rectH clientX clientY : ℚ) :
    ℚ × ℚ :=
  ((clientX - rectLeft - rectW / 2) / t.k - t.x,
   (clientY - rectTop - rectH / 2) / t.k - t.y)

/-- Screen position (in container coordinates, before the devicePixelRatio
scale that is applied uniformly to the whole canvas) at which drawWorkspace
(App.jsx 130-156) renders a world point: the context is translated by
(cx, cy), scaled by k and translated by (x, y), so a world point w lands at
(cx + k * (w.x + x), cy + k * (w.y + y)).  In comparison mode cx is the
center of the left region, (rect.width * sliderPosition) / 2; otherwise it
is rect.width / 2 (draw() passes sliderPosition = 1.0 then, App.jsx 207). -/
def renderScreen (t : Transform) (rectW rectH : ℚ) (isComparing : Bool)
    (sliderPosition : ℚ) (w : ℚ × ℚ) : ℚ × ℚ :=
  let cx := if isComparing then rectW * sliderPosition / 2 else rectW / 2
  let cy := rectH / 2
  (cx + t.k * (w.1 + t.x), cy + t.k * (w.2 + t.y))

/-- Wheel zoom, App.jsx 649-656: the chosen pane's scale becomes
Math.max(0.1, Math.min(t.k * (e.deltaY < 0 ? 1.1 : 0.9), 10)); the pan
offset x, y is left unchanged. -/
def handleWheelT (t : Transform) (deltaY : ℚ) : Transform :=
  { t with k := max (1 / 10) (min (t.k * (if deltaY < 0 then 11 / 10 else 9 / 10)) 10) }

/-- Fit-to-content transform used on image load (App.jsx 754-757), on
resize (402-415) and on recenter (727-744):
scaleFit = Math.min(availW / imgW, availH / imgH) * 0.9 with pan reset to
the origin.  The code applies no clamp to scaleFit. -/
def fitTransform (availW availH imgW imgH : ℚ) : Transform :=
  ⟨0, 0, min (availW / imgW) (availH / imgH) * (9 / 10)⟩

/-! ## Pinch zoom (App.jsx 530-546)

The two-pointer branch of handlePointerMove computes
zoom = dist / lastDist with lastDist = gestureState.lastDist || dist,
clamps k * zoom into [0.1, 10] and then pans by the midpoint delta divided
by the new k.  JavaScript numbers can become non-finite here: when both
the remembered distance and the current distance are 0 the division is
0/0 = NaN, and Math.min, Math.max, *, + and / all propagate NaN.  A value
that may be non-finite is modelled as Option ℚ with none for a non-finite
number.  In this handler the only way a division by zero arises is 0/0
(when the remembered distance is falsy, lastDist is the current dist, so a
nonzero numerator over a zero denominator cannot occur), which keeps the
none-propagating model faithful on all reachable inputs. -/

/-- JavaScript a || b on non-negative numbers: 0 is falsy. -/
def jsOr (a b : ℚ) : ℚ := if a = 0 then b else a

/-- Addition on possibly non-finite values. -/
def oAdd : Option ℚ → Option ℚ → Option ℚ
  | some a, some b => some (a + b)
  | _, _ => none

/-- Multiplication on possibly non-finite values. -/
def oMul : Option ℚ → Option ℚ → Option ℚ
  | some a, some b => some (a * b)
  | _, _ => none

/-- Division on possibly non-finite values; a zero divisor yields a
non-finite result (0/0 = NaN; in pinchMove the numerator is then 0). -/
def oDiv : Option ℚ → Option ℚ → Option ℚ
  | some a, some b => if b = 0 then none else some (a / b)
  | _, _ => none

/-- Math.min with NaN propagation. -/
def oMin : Option ℚ → Option ℚ → Option ℚ
  | some a, some b => some (min a b)
  | _, _ => none

/-- Math.max with NaN propagation. -/
def oMax : Option ℚ → Option ℚ → Option ℚ
  | some a, some b => some (max a b)
  | _, _ => none

/-- A transform whose fields may have become non-finite. -/
structure NTrans where
  x : Option ℚ
  y : Option ℚ
  k : Option ℚ
  deriving DecidableEq, Repr

/-- Two-pointer (pinch) branch of handlePointerMove, App.jsx 530-546.
lastDist and lastCenter are gestureState.current values (lastCenter may be
null); dist and center come from the two current pointer positions.
The code is
  zoom = dist / lastDist;
  t.k = Math.max(0.1, Math.min(t.k * zoom, 10));
  t.x += (center.x - lastCenter.x) / t.k;  (t.k here is already the new k)
  t.y += (center.y - lastCenter.y) / t.k. -/
def pinchMove (lastDist : ℚ) (lastCenter : Option (ℚ × ℚ)) (dist : ℚ)
    (center : ℚ × ℚ) (t : NTrans) : NTrans :=
  let ld := jsOr lastDist dist
  let lc := lastCenter.getD center
  let zoom := oDiv (some dist) (some ld)
  let k2 := oMax (some (1 / 10)) (oMin (oMul t.k zoom) (some 10))
  let x2 := oAdd t.x (oDiv (some (center.1 - lc.1)) k2)
  let y2 := oAdd t.y (oDiv (some (center.2 - lc.2)) k2)
  ⟨x2, y2, k2⟩

/-! ## Ink path model and history (App.jsx 77-96, 602-628, 666-710)

Each pane owns an ordered list of committed strokes (paths), an undo
history (history), a redo stack (redoStack) and a nullable in-progress
stroke (currentPath).  JavaScript array push/pop work at the end of the
array, so stacks are modelled as lists that grow at the right end. -/

/-- One freehand stroke: ordered world points, color, width, eraser flag
(App.jsx 503: { points: [wp], color, size, isEraser }). -/
structure Stroke where
  points : List (ℝ × ℝ)
  color : String
  size : ℚ
  isEraser : Bool

/-- Ink state of one pane: paths / history / redoStack / currentPath
(App.jsx 77-95 for the workspace pane, 88-96 for the reference pane). -/
structure PaneInk where
  paths : List Stroke
  history : List (List Stroke)
  redoStack : List (List Stroke)
  currentPath : Option Stroke

/-- Per-pane commit performed by handlePointerUp (App.jsx 611-622): if an
in-progress stroke exists, push a shallow copy of the stroke list onto the
history, clear the redo stack, append the stroke, and clear the
in-progress stroke; otherwise do nothing. -/
def commitCurrent (s : PaneInk) : PaneInk :=
  match s.currentPath with
  | none => s
  | some p =>
    { paths := s.paths ++ [p]
      history := s.history ++ [s.paths]
      redoStack := []
      currentPath := none }

/-- handleUndo (App.jsx 666-672; handleRefUndo 682-688 is identical for
the reference pane): if the history is nonempty, push the current stroke
list onto the redo stack and pop the history into the stroke list. -/
def handleUndo (s : PaneInk) : PaneInk :=
  match s.history.getLast? with
  | none => s
  | some prev =>
    { s with
      paths := prev
      history := s.history.dropLast
      redoStack := s.redoStack ++ [s.paths] }

/-- handleRedo (App.jsx 674-680; handleRefRedo 690-696 is identical): if
the redo stack is nonempty, push the current stroke list onto the history
and pop the redo stack into the stroke list. -/
def handleRedo (s : PaneInk) : PaneInk :=
  match s.redoStack.getLast? with
  | none => s
  | some nxt =>
    { s with
      paths := nxt
      history := s.history ++ [s.paths]
      redoStack := s.redoStack.dropLast }

/-- Beginning a stroke in the single-pointer draw branch of
handlePointerDown (App.jsx 503-506): a new in-progress stroke becomes the
pane's currentPath. -/
def startStroke (s : PaneInk) (p : Stroke) : PaneInk :=
  { s with currentPath := some p }

/-- Ink-model effect of the image-load onload callback handleFile
(App.jsx 752-760): paths.current = [] and history.current = [].  The redo
stack and the in-progress stroke are not touched by handleFile (the
reference-pane loader handleReferenceFile, App.jsx 770-785, likewise
resets refPaths and refHistory but not refRedoStack). -/
def handleFileLoad (s : PaneInk) : PaneInk :=
  { s with paths := [], history := [] }

/-- Ink state of both panes together: handlePointerDown and
handlePointerUp act on both panes at once. -/
structure InkBoard where
  pane : PaneInk
  refPane : PaneInk

/-- Effect on the ink state of a second pointer-down (App.jsx 483-487):
when the pointer registry reaches two pointers, both in-progress strokes
are discarded (currentPath.current = null; currentRefPath.current = null)
without being committed; no history entry is pushed. -/
def secondPointerDown (b : InkBoard) : InkBoard :=
  ⟨{ b.pane with currentPath := none }, { b.refPane with currentPath := none }⟩

/-- Ink-model effect of handlePointerUp (App.jsx 602-628): both panes
commit their in-progress stroke if one exists. -/
def handlePointerUp (b : InkBoard) : InkBoard :=
  ⟨commitCurrent b.pane, commitCurrent b.refPane⟩

/-- A sample stroke used for concrete witnesses. -/
def sampleStroke : Stroke :=
  ⟨[((0 : ℝ), (0 : ℝ))], "#FF4444", 12, false⟩

/-! ## Edge-snap analyzer (App.jsx 246-390)

snapToEdge converts the world point to image pixel coordinates, estimates
a drawing direction from the trailing stroke points, scans a neighborhood
window (half-width 8, clamped to the image bounds) for the best-scoring
edge pixel, and converts the winner back to world space with a final
6-unit clamp on the offset from the raw point.  The image is modelled as
total RGBA channel functions over ℤ coordinates; every read the scan
performs lies inside the padded window the code extracts with
getImageData (the window is clamped so that startX, startY ≥ 1 and
endX ≤ width - 1, endY ≤ height - 1, and candidates keep a one-pixel
border inside the pad), so the JavaScript out-of-range || 0 fallbacks on
the alpha reads never fire.  Real.sqrt stands for Math.hypot. -/

/-- A decoded raster image: size plus RGBA byte values per pixel. -/
structure Img where
  width : ℤ
  height : ℤ
  r : ℤ → ℤ → ℝ
  g : ℤ → ℤ → ℝ
  b : ℤ → ℤ → ℝ
  a : ℤ → ℤ → ℝ

/-- JavaScript Math.round (round half towards positive infinity). -/
noncomputable def jsRound (q : ℝ) : ℤ := ⌊q + 1 / 2⌋

/-- Alpha-weighted grayscale value of a pixel (App.jsx 312-318):
(r * 0.299 + g * 0.587 + b * 0.114) * (a / 255). -/
noncomputable def lum (im : Img) (px py : ℤ) : ℝ :=
  (im.r px py * 0.299 + im.g px py * 0.587 + im.b px py * 0.114)
    * (im.a px py / 255)

/-- Central-difference luminance gradient in x (App.jsx 327). -/
noncomputable def gradX (im : Img) (px py : ℤ) : ℝ :=
  lum im (px + 1) py - lum im (px - 1) py

/-- Central-difference luminance gradient in y (App.jsx 328). -/
noncomputable def gradY (im : Img) (px py : ℤ) : ℝ :=
  lum im px (py + 1) - lum im px (py - 1)

/-- Gradient magnitude Math.hypot(gx, gy) (App.jsx 329). -/
noncomputable def gradMagAt (im : Img) (px py : ℤ) : ℝ :=
  Real.sqrt (gradX im px py ^ 2 + gradY im px py ^ 2)

/-- Alpha-channel edge magnitude (App.jsx 332-337):
Math.hypot(aR - aL, aD - aU) / 255. -/
noncomputable def alphaGradAt (im : Img) (px py : ℤ) : ℝ :=
  Real.sqrt ((im.a (px + 1) py - im.a (px - 1) py) ^ 2
    + (im.a px (py + 1) - im.a px (py - 1)) ^ 2) / 255

/-- Combined edge strength gradMag + alphaGrad * 80 (App.jsx 339). -/
noncomputable def edgeStrengthAt (im : Img) (px py : ℤ) : ℝ :=
  gradMagAt im px py + alphaGradAt im px py * 80

/-- Accumulator of the candidate scan: running best score and the best
pixel found so far (App.jsx 320-322: maxScore = -1, best = cursor). -/
structure ScanState where
  maxScore : ℝ
  bestX : ℤ
  bestY : ℤ

/-- One candidate pixel of the scan loop body (App.jsx 324-373): skip the
pixel when its edge strength is below the floor 5; otherwise score it —
with an established drawing direction d, by edge strength plus an
orientation bonus minus offset penalties (8.0 perpendicular, 1.5
parallel); without one, by edge strength minus 5.0 times the distance —
and take the pixel when its score strictly beats the running maximum. -/
noncomputable def scanStep (im : Img) (imgX imgY : ℤ) (dir : Option (ℝ × ℝ))
    (st : ScanState) (c : ℤ × ℤ) : ScanState :=
  if edgeStrengthAt im c.1 c.2 < 5 then st
  else
    let dx : ℝ := ((c.1 - imgX : ℤ) : ℝ)
    let dy : ℝ := ((c.2 - imgY : ℤ) : ℝ)
    match dir with
    | some d =>
      let gradMag := gradMagAt im c.1 c.2
      let parallelDist := |dx * d.1 + dy * d.2|
      let perpDist := |dx * (-d.2) + dy * d.1|
      let edgeDirX := if gradMag > 0.1 then gradX im c.1 c.2 / gradMag else 0
      let edgeDirY := if gradMag > 0.1 then gradY im c.1 c.2 / gradMag else 0
      let orientBonus := |edgeDirX * d.1 + edgeDirY * d.2| * 15
      let penalty := perpDist * 8.0 + parallelDist * 1.5
      let score := edgeStrengthAt im c.1 c.2 + orientBonus - penalty
      if st.maxScore < score then ⟨score, c.1, c.2⟩ else st
    | none =>
      let dist := Real.sqrt (dx ^ 2 + dy ^ 2)
      let score := edgeStrengthAt im c.1 c.2 - dist * 5.0
      if st.maxScore < score then ⟨score, c.1, c.2⟩ else st

/-- Candidate pixels in loop order (App.jsx 324-325): row-major over
startY ≤ py < endY, startX ≤ px < endX. -/
def candList (sX sY eX eY : ℤ) : List (ℤ × ℤ) :=
  (List.range (eY - sY).toNat).flatMap fun j =>
    (List.range (eX - sX).toNat).map fun i => (sX + (i : ℤ), sY + (j : ℤ))

/-- Weighted direction accumulator over the trailing stroke segments
(App.jsx 258-272): up to the last 25 points, skipping segments shorter
than 0.5, weighting a segment's unit direction by 1 + age * 0.3.  Returns
(dirX sum, dirY sum, total weight). -/
noncomputable def dirAccum (prev : List (ℝ × ℝ)) : ℝ × ℝ × ℝ :=
  let len := prev.length
  let lookback := min len 25
  (List.range (lookback - 1)).foldl
    (fun acc j =>
      let i := len - lookback + j
      let p := prev.getD i (0, 0)
      let q := prev.getD (i + 1) (0, 0)
      let segDx := q.1 - p.1
      let segDy := q.2 - p.2
      let segLen := Real.sqrt (segDx ^ 2 + segDy ^ 2)
      if segLen < 0.5 then acc
      else
        let age : ℝ := (len : ℝ) - 1 - (i : ℝ)
        let weight := 1.0 + age * 0.3
        (acc.1 + segDx / segLen * weight, acc.2.1 + segDy / segLen * weight,
          acc.2.2 + weight))
    (0, 0, 0)

/-- Established drawing direction (App.jsx 253-283): none unless the
stroke has at least 3 points, the accumulated weight is positive and the
averaged vector's length exceeds 0.1; otherwise the normalized average. -/
noncomputable def drawDir (prev : List (ℝ × ℝ)) : Option (ℝ × ℝ) :=
  if prev.length < 3 then none
  else
    let acc := dirAccum prev
    if 0 < acc.2.2 then
      let dx := acc.1 / acc.2.2
      let dy := acc.2.1 / acc.2.2
      let dl := Real.sqrt (dx ^ 2 + dy ^ 2)
      if 0.1 < dl then some (dx / dl, dy / dl) else none
    else none

/-- The full candidate scan of the clamped window around the cursor pixel
(App.jsx 289-293 and 320-373). -/
noncomputable def snapScan (im : Img) (imgX imgY : ℤ) (dir : Option (ℝ × ℝ)) :
    ScanState :=
  (candList (max 1 (imgX - 8)) (max 1 (imgY - 8))
      (min (im.width - 1) (imgX + 8)) (min (im.height - 1) (imgY + 8))).foldl
    (scanStep im imgX imgY dir) ⟨-1, imgX, imgY⟩

/-- Final 6-unit clamp of the snap offset (App.jsx 377-389): if the
distance from the raw point to the snapped point exceeds maxSnap = 6, the
offset is rescaled to length exactly 6. -/
noncomputable def clampSnap (wx wy sx sy : ℝ) : ℝ × ℝ :=
  let snapDx := sx - wx
  let snapDy := sy - wy
  let snapDist := Real.sqrt (snapDx ^ 2 + snapDy ^ 2)
  if snapDist > 6 then
    (wx + snapDx * (6 / snapDist), wy + snapDy * (6 / snapDist))
  else (sx, sy)

/-- The edge-snap analyzer snapToEdge (App.jsx 246-390).  Returns the raw
world point when the image is absent, when the clamped window falls below
3x3 (endX - startX ≤ 2 or endY - startY ≤ 2), or when the best candidate
score stays below 5; otherwise the best pixel converted back to world
space, clamped to within 6 units of the raw point. -/
noncomputable def snapToEdge (wx wy : ℝ) (img : Option Img)
    (prev : List (ℝ × ℝ)) : ℝ × ℝ :=
  match img with
  | none => (wx, wy)
  | some im =>
    let imgX := jsRound (wx + (im.width : ℝ) / 2)
    let imgY := jsRound (wy + (im.height : ℝ) / 2)
    if min (im.width - 1) (imgX + 8) - max 1 (imgX - 8) ≤ 2 ∨
        min (im.height - 1) (imgY + 8) - max 1 (imgY - 8) ≤ 2 then (wx, wy)
    else
      let st := snapScan im imgX imgY (drawDir prev)
      if st.maxScore < 5 then (wx, wy)
      else
        clampSnap wx wy ((st.bestX : ℝ) - (im.width : ℝ) / 2)
          ((st.bestY : ℝ) - (im.height : ℝ) / 2)

/-! ## Undo / redo history (claims C1, C3) -/

/-- C1: committing an in-progress stroke (the pointer-up path) and then
undoing leaves the pane's stroke list equal to its pre-commit state, and
undo followed by redo restores the post-commit stroke list exactly, for
every pane ink state. -/
theorem commit_undo_redo_inverse (s : PaneInk) (p : Stroke)
    (h : s.currentPath = some p) :
    (handleUndo (commitCurrent s)).paths = s.paths ∧
    (handleRedo (handleUndo (commitCurrent s))).paths = (commitCurrent s).paths := by
  simp [commitCurrent, h, handleUndo, handleRedo, List.getLast?_concat,
    List.dropLast_concat]

/-- Witness for C1 at a concrete pane state: empty stroke list and stacks,
with sampleStroke in progress. -/
theorem commit_undo_redo_inverse_witness :
    (handleUndo (commitCurrent ⟨[], [], [], some sampleStroke⟩)).paths = [] ∧
    (handleRedo (handleUndo (commitCurrent ⟨[], [], [], some sampleStroke⟩))).paths
      = (commitCurrent ⟨[], [], [], some sampleStroke⟩).paths :=
  commit_undo_redo_inverse ⟨[], [], [], some sampleStroke⟩ sampleStroke rfl

/-- C3: committing a new stroke empties the pane's redo stack, and after
commit, undo, commit, a redo call is a no-op: the whole ink state (in
particular the stroke list) is unchanged by it. -/
theorem commit_clears_redo (s : PaneInk) (p q : Stroke)
    (h : s.currentPath = some p) :
    (commitCurrent s).redoStack = [] ∧
    handleRedo (commitCurrent (startStroke (handleUndo (commitCurrent s)) q))
      = commitCurrent (startStroke (handleUndo (commitCurrent s)) q) := by
  simp [commitCurrent, h, handleUndo, handleRedo, startStroke,
    List.getLast?_concat, List.dropLast_concat]

/-- Witness for C3 at a concrete pane state. -/
theorem commit_clears_redo_witness :
    (commitCurrent ⟨[], [], [], some sampleStroke⟩).redoStack = [] ∧
    handleRedo (commitCurrent (startStroke
      (handleUndo (commitCurrent ⟨[], [], [], some sampleStroke⟩)) sampleStroke))
      = commitCurrent (startStroke
        (handleUndo (commitCurrent ⟨[], [], [], some sampleStroke⟩)) sampleStroke) :=
  commit_clears_redo ⟨[], [], [], some sampleStroke⟩ sampleStroke sampleStroke rfl

/-- C10: a second pointer-down discards the in-progress strokes of both
panes without committing them: after the discard followed by the two
pointer-ups, both stroke lists and both histories are exactly what they
were before the sequence. -/
theorem two_finger_discards_stroke (b : InkBoard) :
    (handlePointerUp (handlePointerUp (secondPointerDown b))).pane.paths
      = b.pane.paths ∧
    (handlePointerUp (handlePointerUp (secondPointerDown b))).pane.history
      = b.pane.history ∧
    (handlePointerUp (handlePointerUp (secondPointerDown b))).refPane.paths
      = b.refPane.paths ∧
    (handlePointerUp (handlePointerUp (secondPointerDown b))).refPane.history
      = b.refPane.history := by
  simp [handlePointerUp, secondPointerDown, commitCurrent]

/-- C5: loading a new image resets the stroke list and the undo history,
but the code leaves the redo stack untouched (App.jsx 758 clears only
paths and history), so a pane whose redo stack was nonempty still has a
stale redo entry after the image load. -/
theorem image_load_leaves_redo_stack :
    (handleFileLoad ⟨[sampleStroke], [[]], [[sampleStroke]], none⟩).paths = [] ∧
    (handleFileLoad ⟨[sampleStroke], [[]], [[sampleStroke]], none⟩).history = [] ∧
    (handleFileLoad ⟨[sampleStroke], [[]], [[sampleStroke]], none⟩).redoStack
      = [[sampleStroke]] ∧
    ([[sampleStroke]] : List (List Stroke)) ≠ [] := by
  refine ⟨rfl, rfl, rfl, by simp⟩

/-! ## Viewport transform claims (C2, C4, C6, C7) -/

/-- Counterexample to C2: a wheel zoom-in (deltaY < 0, factor 1.1, which
keeps k = 1 within bounds) at cursor (300, 300) in an 800x600 container
does not preserve the world point under the cursor: the world point
changes from (-100, 0) to (-1000/11, 0). -/
theorem wheel_zoom_moves_cursor_world_point :
    1 / 10 ≤ (handleWheelT ⟨0, 0, 1⟩ (-1)).k ∧
    (handleWheelT ⟨0, 0, 1⟩ (-1)).k ≤ 10 ∧
    toWorkspaceWorld ⟨0, 0, 1⟩ 0 0 800 600 300 300 = (-100, 0) ∧
    toWorkspaceWorld (handleWheelT ⟨0, 0, 1⟩ (-1)) 0 0 800 600 300 300
      ≠ toWorkspaceWorld ⟨0, 0, 1⟩ 0 0 800 600 300 300 := by
  norm_num [toWorkspaceWorld, handleWheelT, Prod.ext_iff, min_def, max_def]

/-- C2 (amended): the wheel zoom is scale-only; it preserves the world
point under the pane's visual center screen point (the fixed point of the
rendering transform), not the world point under an arbitrary cursor
position. -/
theorem wheel_zoom_preserves_center_world_point (t : Transform)
    (d l tp w h : ℚ) :
    toWorkspaceWorld (handleWheelT t d) l tp w h (l + w / 2) (tp + h / 2)
      = toWorkspaceWorld t l tp w h (l + w / 2) (tp + h / 2) := by
  have h1 : l + w / 2 - l - w / 2 = 0 := by ring
  have h2 : tp + h / 2 - tp - h / 2 = 0 := by ring
  simp [toWorkspaceWorld, handleWheelT, h1, h2]

/-- Counterexample to C4: the fit-to-content transform applied on image
load is not clamped: a 10000x10000 image in a 100x100 container yields
k = 9/1000, below the claimed lower bound 0.1. -/
theorem fit_escapes_scale_bounds :
    (fitTransform 100 100 10000 10000).k = 9 / 1000 ∧
    ¬ (1 / 10 ≤ (fitTransform 100 100 10000 10000).k) := by
  norm_num [fitTransform, min_def]

set_option maxRecDepth 4000 in
/-- C4 (amended): the wheel and pinch zoom updates do clamp k into
[0.1, 10] (and 100 consecutive 1.1x wheel zooms from k = 1 end exactly at
k = 10), but the fit-to-content path sets k without a clamp. -/
theorem zoom_updates_clamp_k :
    (∀ t d, 1 / 10 ≤ (handleWheelT t d).k ∧ (handleWheelT t d).k ≤ 10) ∧
    (∀ ld lc dist c t q,
      (pinchMove ld lc dist c t).k = some q → 1 / 10 ≤ q ∧ q ≤ 10) ∧
    (fun t => handleWheelT t (-1))^[100] ⟨0, 0, 1⟩ = ⟨0, 0, 10⟩ := by
  refine ⟨fun t d => ?_, ?_, ?_⟩
  · simp only [handleWheelT]
    exact ⟨le_max_left _ _, max_le (by norm_num) (min_le_right _ _)⟩
  · intro ld lc dist c t q h
    rcases t with ⟨x, y, k⟩
    cases k with
    | none => simp [pinchMove, oMul, oMin, oMax] at h
    | some kq =>
      by_cases h0 : jsOr ld dist = 0
      · simp [pinchMove, oDiv, h0, oMul, oMin, oMax] at h
      · simp [pinchMove, oDiv, h0, oMul, oMin, oMax] at h
        subst h
        refine ⟨le_trans (by norm_num : (1 : ℚ) / 10 ≤ 10⁻¹) le_sup_left,
          sup_le (by norm_num) inf_le_right⟩
  · norm_num [Function.iterate_succ_apply, handleWheelT, Transform.mk.injEq]

/-- Counterexample to C6: a pinch move with coincident pointers
(inter-pointer distance 0) is not a no-op and can go non-finite.  With a
remembered distance of 5 the zoom factor is 0 and k is clamped from 1
down to 1/10 (a zoom change); with a remembered distance of 0 the zoom is
0/0 and k becomes non-finite (none). -/
theorem pinch_zero_distance_not_guarded :
    (pinchMove 5 (some (0, 0)) 0 (0, 0) ⟨some 0, some 0, some 1⟩).k
      = some (1 / 10) ∧
    ((1 : ℚ) / 10 ≠ 1) ∧
    (pinchMove 0 (some (0, 0)) 0 (0, 0) ⟨some 0, some 0, some 1⟩).k = none := by
  norm_num [pinchMove, jsOr, oDiv, oMul, oMin, oMax, min_def, max_def]

/-- C6 (amended): the pinch handler has no zero-distance guard.  With
coincident pointers it sets k to the clamped zero zoom 1/10 whenever the
remembered inter-pointer distance is nonzero, and k becomes non-finite
(0/0) whenever the remembered distance is also zero. -/
theorem pinch_zero_distance_behavior (ld : ℚ) (lc : Option (ℚ × ℚ))
    (c : ℚ × ℚ) (x y k : ℚ) :
    (ld ≠ 0 → (pinchMove ld lc 0 c ⟨some x, some y, some k⟩).k = some (1 / 10)) ∧
    (ld = 0 → (pinchMove ld lc 0 c ⟨some x, some y, some k⟩).k = none) := by
  constructor
  · intro h
    norm_num [pinchMove, jsOr, h, oDiv, oMul, oMin, oMax, min_def, max_def]
  · intro h
    simp [pinchMove, jsOr, h, oDiv, oMul, oMin, oMax]

/-- C7: in comparison mode the screen-to-world conversion used for
drawing on the left pane is not the inverse of the rendering transform:
toWorkspaceWorld centers on the full container width while drawWorkspace
centers on the left split region.  At slider position 1/2 in an 800x600
container with the identity transform, a point drawn at cursor x = 200
renders at screen x = 0. -/
theorem comparison_draw_render_mismatch :
    toWorkspaceWorld ⟨0, 0, 1⟩ 0 0 800 600 200 300 = (-200, 0) ∧
    renderScreen ⟨0, 0, 1⟩ 800 600 true (1 / 2)
      (toWorkspaceWorld ⟨0, 0, 1⟩ 0 0 800 600 200 300) = (0, 300) ∧
    ((0 : ℚ) ≠ 200) := by
  norm_num [toWorkspaceWorld, renderScreen, Prod.ext_iff]

/-! ## Claim C8: the snap never moves the point more than 6 world units -/

/-- The final clamp keeps the squared distance from the raw point at most
36: either the snapped point was already within distance 6, or the offset
is rescaled to length exactly 6. -/
theorem clampSnap_dist_sq_le (wx wy sx sy : ℝ) :
    ((clampSnap wx wy sx sy).1 - wx) ^ 2 + ((clampSnap wx wy sx sy).2 - wy) ^ 2
      ≤ 36 := by
  have hS : (0 : ℝ) ≤ (sx - wx) ^ 2 + (sy - wy) ^ 2 := by positivity
  have hsq : Real.sqrt ((sx - wx) ^ 2 + (sy - wy) ^ 2) ^ 2
      = (sx - wx) ^ 2 + (sy - wy) ^ 2 := Real.sq_sqrt hS
  simp only [clampSnap]
  split_ifs with h
  · have h36 : (6 : ℝ) ^ 2 < Real.sqrt ((sx - wx) ^ 2 + (sy - wy) ^ 2) ^ 2 :=
      pow_lt_pow_left₀ h (by norm_num) (by norm_num)
    have hSpos : (0 : ℝ) < (sx - wx) ^ 2 + (sy - wy) ^ 2 := by
      rw [← hsq]; nlinarith
    have hne : Real.sqrt ((sx - wx) ^ 2 + (sy - wy) ^ 2) ≠ 0 := by positivity
    have key : (wx + (sx - wx) * (6 / Real.sqrt ((sx - wx) ^ 2 + (sy - wy) ^ 2)) - wx) ^ 2
        + (wy + (sy - wy) * (6 / Real.sqrt ((sx - wx) ^ 2 + (sy - wy) ^ 2)) - wy) ^ 2
        = ((sx - wx) ^ 2 + (sy - wy) ^ 2) * 36
          / Real.sqrt ((sx - wx) ^ 2 + (sy - wy) ^ 2) ^ 2 := by
      field_simp
      ring
    refine le_of_eq ?_
    rw [key, hsq]
    field_simp
  · have hle : Real.sqrt ((sx - wx) ^ 2 + (sy - wy) ^ 2) ≤ 6 := le_of_not_lt h
    calc (sx - wx) ^ 2 + (sy - wy) ^ 2
        = Real.sqrt ((sx - wx) ^ 2 + (sy - wy) ^ 2) ^ 2 := hsq.symm
      _ ≤ 6 ^ 2 := pow_le_pow_left₀ (Real.sqrt_nonneg _) hle 2
      _ = 36 := by norm_num

/-- C8: for every input point, image and previous-point list, the point
returned by the edge-snap analyzer lies at Euclidean distance at most 6
world units from the raw input point. -/
theorem snap_within_six_units (wx wy : ℝ) (img : Option Img)
    (prev : List (ℝ × ℝ)) :
    Real.sqrt (((snapToEdge wx wy img prev).1 - wx) ^ 2
      + ((snapToEdge wx wy img prev).2 - wy) ^ 2) ≤ 6 := by
  have h36 : Real.sqrt 36 = 6 := by
    rw [show (36 : ℝ) = 6 ^ 2 by norm_num,
      Real.sqrt_sq (by norm_num : (0 : ℝ) ≤ 6)]
  suffices h : ((snapToEdge wx wy img prev).1 - wx) ^ 2
      + ((snapToEdge wx wy img prev).2 - wy) ^ 2 ≤ 36 by
    calc Real.sqrt (((snapToEdge wx wy img prev).1 - wx) ^ 2
          + ((snapToEdge wx wy img prev).2 - wy) ^ 2)
        ≤ Real.sqrt 36 := Real.sqrt_le_sqrt h
      _ = 6 := h36
  cases img with
  | none => simp [snapToEdge]
  | some im =>
    simp only [snapToEdge]
    split_ifs
    · norm_num
    · norm_num
    · exact clampSnap_dist_sq_le wx wy _ _

/-! ## Claim C9: when the analyzer returns the unsnapped point

Helper evaluations on a concrete 5x5 image show that the three conditions
the claim lists (edge strength below the floor everywhere, window
collapse, absent image) are not exhaustive: a candidate can pass the
strength floor and still lose enough score to the distance penalty that
the best score stays below 5, and the analyzer returns the raw point. -/

/-- Concrete 5x5 image: a single bright pixel at (3, 1) on a black, fully
opaque background.  The candidates (2, 1) and (3, 2) have edge strength 6
(above the floor 5), but their distance penalty 5 brings their score down
to 1, below the acceptance threshold 5. -/
noncomputable def edgeImg : Img :=
  ⟨5, 5,
   fun x y => if x = 3 ∧ y = 1 then 6 else 0,
   fun x y => if x = 3 ∧ y = 1 then 6 else 0,
   fun x y => if x = 3 ∧ y = 1 then 6 else 0,
   fun _ _ => 255⟩

/-- Luminance of edgeImg: 6 at the bright pixel, 0 elsewhere (the alpha
weight is 255/255 = 1 and 0.299 + 0.587 + 0.114 = 1). -/
theorem lum_edgeImg (x y : ℤ) :
    lum edgeImg x y = if x = 3 ∧ y = 1 then 6 else 0 := by
  simp only [lum, edgeImg]
  split_ifs with h
  · norm_num
  · norm_num

/-- The alpha channel of edgeImg is constant, so its edge magnitude
vanishes everywhere. -/
theorem alphaGrad_edgeImg (x y : ℤ) : alphaGradAt edgeImg x y = 0 := by
  simp [alphaGradAt, edgeImg, Real.sqrt_zero]

/-- Square root of 36. -/
theorem sqrt36 : Real.sqrt 36 = 6 := by
  rw [show (36 : ℝ) = 6 ^ 2 by norm_num,
    Real.sqrt_sq (by norm_num : (0 : ℝ) ≤ 6)]

/-- Candidate (2, 1) of edgeImg passes the strength floor: its gradient
is (6, 0), so its edge strength is 6. -/
theorem es_21 : edgeStrengthAt edgeImg 2 1 = 6 := by
  simp only [edgeStrengthAt, gradMagAt, gradX, gradY, alphaGrad_edgeImg,
    lum_edgeImg]
  norm_num [sqrt36]

/-- Math.round at the concrete cursor pixel coordinate 2. -/
theorem jsRound_two : jsRound (2 : ℝ) = 2 := by
  rw [jsRound]
  norm_num

/-- The scan window of the counterexample in loop order. -/
theorem candList_cex :
    candList 1 1 4 4
      = [(1, 1), (2, 1), (3, 1), (1, 2), (2, 2), (3, 2), (1, 3), (2, 3), (3, 3)] := by
  decide

/-- The scan over edgeImg around cursor pixel (2, 2) with no established
direction ends with best score 1 (candidate (2, 1): strength 6 minus
distance penalty 5) — above the floor but below the acceptance
threshold 5. -/
theorem snapScan_cex : snapScan edgeImg 2 2 none = ⟨1, 2, 1⟩ := by
  have h1 : (max 1 (2 - 8) : ℤ) = 1 := by decide
  have h4w : (min (edgeImg.width - 1) (2 + 8) : ℤ) = 4 := by simp [edgeImg]
  have h4h : (min (edgeImg.height - 1) (2 + 8) : ℤ) = 4 := by simp [edgeImg]
  rw [snapScan, h1, h4w, h4h, candList_cex]
  simp only [List.foldl_cons, List.foldl_nil]
  norm_num [scanStep, edgeStrengthAt, gradMagAt, gradX, gradY,
    alphaGrad_edgeImg, lum_edgeImg, Real.sqrt_zero, Real.sqrt_one, sqrt36]

/-- An empty stroke has no established direction (App.jsx 255: fewer than
3 previous points). -/
theorem drawDir_nil : drawDir [] = none := by
  simp [drawDir]

/-- At the counterexample input (world point (-1/2, -1/2), image edgeImg,
no previous points) the analyzer returns the raw point: the best score is
1 < 5. -/
theorem snapToEdge_cex_eval :
    snapToEdge (-1/2) (-1/2) (some edgeImg) [] = (-1/2, -1/2) := by
  have hw : ((edgeImg.width : ℤ) : ℝ) = 5 := by simp [edgeImg]
  have hh : ((edgeImg.height : ℤ) : ℝ) = 5 := by simp [edgeImg]
  have hwz : edgeImg.width = 5 := rfl
  have hhz : edgeImg.height = 5 := rfl
  simp only [snapToEdge, hw, hh, hwz, hhz, drawDir_nil]
  norm_num [jsRound_two, snapScan_cex]

/-- Counterexample to C9: the analyzer returns the unsnapped input point
even though none of the claim's listed conditions holds — the image is
present, the clamped window is a full 3x3 (neither extent is ≤ 2), and
not every candidate is below the strength floor (candidate (2, 1) of the
window has edge strength 6 ≥ 5).  The raw point is returned because the
best score (strength minus distance penalty) stays below 5. -/
theorem snap_raw_despite_strong_edge :
    snapToEdge (-1/2) (-1/2) (some edgeImg) [] = (-1/2, -1/2) ∧
    (2, 1) ∈ candList (max 1 (2 - 8)) (max 1 (2 - 8))
      (min (edgeImg.width - 1) (2 + 8)) (min (edgeImg.height - 1) (2 + 8)) ∧
    ¬ edgeStrengthAt edgeImg 2 1 < 5 ∧
    ¬ (min (edgeImg.width - 1) (jsRound ((-1/2 : ℝ) + (edgeImg.width : ℝ) / 2) + 8)
        - max 1 (jsRound ((-1/2 : ℝ) + (edgeImg.width : ℝ) / 2) - 8) ≤ 2) ∧
    ¬ (min (edgeImg.height - 1) (jsRound ((-1/2 : ℝ) + (edgeImg.height : ℝ) / 2) + 8)
        - max 1 (jsRound ((-1/2 : ℝ) + (edgeImg.height : ℝ) / 2) - 8) ≤ 2) := by
  have hwz : edgeImg.width = 5 := rfl
  have hhz : edgeImg.height = 5 := rfl
  refine ⟨snapToEdge_cex_eval, ?_, ?_, ?_, ?_⟩
  · rw [hwz, hhz]
    decide
  · rw [es_21]
    norm_num
  · rw [hwz]
    norm_num [jsRound]
  · rw [hhz]
    norm_num [jsRound]

/-- C9 (amended): the analyzer returns the unsnapped input point whenever
the image is absent, the clamped window collapses below 3x3, or the best
candidate score of the scan stays below 5 — the latter covers, but is not
limited to, the case where every candidate is below the strength floor. -/
theorem snap_returns_raw_conditions (wx wy : ℝ) (img : Option Img)
    (prev : List (ℝ × ℝ))
    (h : img = none ∨ ∀ im, img = some im →
      (min (im.width - 1) (jsRound (wx + (im.width : ℝ) / 2) + 8)
          - max 1 (jsRound (wx + (im.width : ℝ) / 2) - 8) ≤ 2 ∨
       min (im.height - 1) (jsRound (wy + (im.height : ℝ) / 2) + 8)
          - max 1 (jsRound (wy + (im.height : ℝ) / 2) - 8) ≤ 2 ∨
       (snapScan im (jsRound (wx + (im.width : ℝ) / 2))
          (jsRound (wy + (im.height : ℝ) / 2)) (drawDir prev)).maxScore < 5)) :
    snapToEdge wx wy img prev = (wx, wy) := by
  cases img with
  | none => rfl
  | some im =>
    rcases h with h | h
    · exact absurd h (by simp)
    · have hc := h im rfl
      simp only [snapToEdge]
      split_ifs with h1 h2
      · rfl
      · rfl
      · rcases hc with hA | hB | hC
        · exact absurd (Or.inl hA) h1
        · exact absurd (Or.inr hB) h1
        · exact absurd hC h2

/-- Witness for the amended C9 at a concrete input: with no image the
analyzer returns the raw point. -/
theorem snap_returns_raw_conditions_witness :
    snapToEdge 0 0 none [] = (0, 0) :=
  snap_returns_raw_conditions 0 0 none [] (Or.inl rfl)

end SFH
